import Mathlib

/-!
Shallow embedding of the `chaostoolkit-pixie` extension.

The core under verification is `chaospixie/tolerances.py` (the tolerance
evaluator: `group_values`, `median_should_be_below`, `median_should_be_above`,
`percentile_should_be_below`, `percentile_should_be_above`) together with the
connection/normalization helpers of `chaospixie/__init__.py` (`get_auth`,
`handle_timestamp`, `nanotime_to_datetime`).

Modelling conventions:
* Python numbers are embedded as `ℚ` (exact rational arithmetic; every input
  used in a concrete counterexample below is exactly representable as a
  binary float, so float rounding cannot change the outcome there).
* A Python dict (one row of results) is an association list with unique keys;
  `List.lookup` is dict access, key-membership is `lookup ≠ none`.
* Python exceptions are an explicit error type `PErr`; `statistics`
  functions signal `StatisticsError` through `Option` (`none`), which the
  tolerance operations catch and turn into `ActivityFailed` exactly as the
  `try/except StatisticsError` blocks of the source do; `TypeError` and
  `IndexError` are not caught anywhere and propagate.
* The compiled regular expression of `re.compile(target[1])` is abstracted by
  a matcher `M : String → String → Bool`, where `M pat s = true` models
  `re.match(pat, s)` returning a match object (anchored match at the start of
  `s`) and `false` models it returning `None`.  `re.match` raises `TypeError`
  on a non-string argument, which the embedding reproduces.  For concrete
  inputs we use `litMatch`, which is `re.match`'s behaviour on
  metacharacter-free (literal) patterns: a literal pattern matches exactly
  the strings it is a prefix of.
* A non-numeric value stored under the extracted `column` makes every source
  operation fail with an uncaught `TypeError` (at the unit conversion, at
  sorting, at averaging, or at the final threshold comparison), so the
  embedding raises `typeError` for it already at extraction.
-/

namespace Chaospixie

/-- A scalar value stored in one column of a result row.  `dt us` stands for
the (ISO-8601 encoded) UTC calendar timestamp that lies `us` microseconds
after the epoch; the encoding itself is an out-of-scope collaborator and is
injective, so the microsecond count identifies the timestamp. -/
inductive Value where
  | num (q : ℚ)
  | str (s : String)
  | bool (b : Bool)
  | null
  | dt (us : ℤ)
deriving DecidableEq

/-- A result row: a flat mapping from column name to scalar, modelled as an
association list with unique keys. -/
abbrev Record := List (String × Value)

/-- The Python exceptions the embedded code can raise.  `activityFailed` and
`invalidExperiment` are the chaostoolkit exception types raised explicitly by
the source; `typeError` and `indexError` are the uncaught interpreter errors
its partial operations can produce. -/
inductive PErr where
  | typeError
  | indexError
  | activityFailed (msg : String)
  | invalidExperiment (msg : String)
deriving DecidableEq

/-- `re.match` on a metacharacter-free pattern: the literal pattern matches
(anchored at the start) exactly the strings it is a prefix of. -/
def litMatch (pat s : String) : Bool :=
  pat.data.isPrefixOf s.data

/-- The unit-conversion chain of `group_values` (tolerances.py lines
197-202): `if convert_from_nanoseconds == "seconds": v = v / 1.0e9` and the
two `elif` branches; any other flag value (including `None`) leaves the value
unchanged. -/
def convertNano (conv : Option String) (v : ℚ) : ℚ :=
  if conv = some "seconds" then v / 1000000000
  else if conv = some "milliseconds" then v / 1000000
  else if conv = some "microseconds" then v / 1000
  else v

/-- One iteration of the `for r in results` loop of `group_values`
(tolerances.py lines 188-204): the target-filter test
`if key and (key in r) and rgx and (rgx.match(r[key]) is None): continue`,
then the column-presence test, then unit conversion.  Returns `none` when the
record contributes no value (it was skipped), `some v` for its converted
contribution. -/
def recordContribution (M : String → String → Bool) (column : String)
    (target : Option (String × String)) (conv : Option String) (r : Record) :
    Except PErr (Option ℚ) :=
  let skipTest : Except PErr Bool :=
    match target with
    | none => .ok false
    | some (key, pat) =>
      if key = "" then .ok false
      else
        match r.lookup key with
        | none => .ok false
        | some (.str s) => .ok (!(M pat s))
        | some _ => .error .typeError
  match skipTest with
  | .error e => .error e
  | .ok true => .ok none
  | .ok false =>
    match r.lookup column with
    | none => .ok none
    | some (.num q) => .ok (some (convertNano conv q))
    | some _ => .error .typeError

/-- `group_values` (tolerances.py lines 173-205): folds
`recordContribution` over the record list in order, collecting the extracted
(converted) values. -/
def group_values (M : String → String → Bool) (results : List Record)
    (column : String) (target : Option (String × String))
    (conv : Option String) : Except PErr (List ℚ) :=
  match results with
  | [] => .ok []
  | r :: rest =>
    match recordContribution M column target conv r with
    | .error e => .error e
    | .ok none => group_values M rest column target conv
    | .ok (some v) =>
      match group_values M rest column target conv with
      | .error e => .error e
      | .ok vs => .ok (v :: vs)

/-- Python `sorted` on a list of numbers (any correct sort of a list over a
linear order produces the same list). -/
def pySorted (l : List ℚ) : List ℚ :=
  List.insertionSort (· ≤ ·) l

/-- `statistics.median`: sort, take the middle element for odd length, the
average of the two middle elements for even length; `none` models the
`StatisticsError` raised on empty data. -/
def pyMedian (data : List ℚ) : Option ℚ :=
  let d := pySorted data
  let n := d.length
  if n = 0 then none
  else if n % 2 = 1 then some (d.getD (n / 2) 0)
  else some ((d.getD (n / 2 - 1) 0 + d.getD (n / 2) 0) / 2)

/-- `statistics.quantiles(data, n=n)` with the default `method="exclusive"`
(the CPython implementation): sorts the data, requires at least two data
points (`none` models the `StatisticsError`), and for `i = 1 .. n-1` returns
the interpolated cut point with `j = clamp(i*(ld+1)/n, 1, ld-1)` and
`delta = i*(ld+1) - j*n`. -/
def pyQuantiles (data : List ℚ) (n : ℕ) : Option (List ℚ) :=
  if n < 1 then none
  else
    let d := pySorted data
    let ld := d.length
    if ld < 2 then none
    else
      let m := ld + 1
      some ((List.range (n - 1)).map (fun i0 =>
        let i := i0 + 1
        let j0 := i * m / n
        let j := if j0 < 1 then 1 else if ld - 1 < j0 then ld - 1 else j0
        let delta : ℤ := (i : ℤ) * (m : ℤ) - (j : ℤ) * (n : ℤ)
        (d.getD (j - 1) 0 * ((n : ℚ) - (delta : ℚ)) + d.getD j 0 * (delta : ℚ))
          / (n : ℚ)))

/-- Python list subscription `l[i]` on a list of numbers: negative indices
count from the end, an out-of-range index raises `IndexError`. -/
def pyIndex (l : List ℚ) (i : ℤ) : Except PErr ℚ :=
  let j : ℤ := if i < 0 then i + (l.length : ℤ) else i
  if 0 ≤ j ∧ j < (l.length : ℤ) then .ok (l.getD j.toNat 0)
  else .error .indexError

/-- `median_should_be_below` (tolerances.py lines 16-51): extract, compute
the median (catching `StatisticsError` as
`ActivityFailed("failed to compute median")`), return `median <= treshold`. -/
def median_should_be_below (M : String → String → Bool) (column : String)
    (treshold : ℚ) (conv : Option String) (target : Option (String × String))
    (value : List Record) : Except PErr Bool :=
  match group_values M value column target conv with
  | .error e => .error e
  | .ok values =>
    match pyMedian values with
    | none => .error (.activityFailed "failed to compute median")
    | some m => .ok (decide (m ≤ treshold))

/-- `median_should_be_above` (tolerances.py lines 54-87): same pipeline,
returns `median >= treshold`. -/
def median_should_be_above (M : String → String → Bool) (column : String)
    (treshold : ℚ) (conv : Option String) (target : Option (String × String))
    (value : List Record) : Except PErr Bool :=
  match group_values M value column target conv with
  | .error e => .error e
  | .ok values =>
    match pyMedian values with
    | none => .error (.activityFailed "failed to compute median")
    | some m => .ok (decide (treshold ≤ m))

/-- `percentile_should_be_below` (tolerances.py lines 90-127):
`q = quantiles(values, n=100)` then `q = q[percentile - 1]` inside a
`try/except StatisticsError` (so only the `StatisticsError` of `quantiles`
becomes `ActivityFailed("failed to compute percentiles")`; the `IndexError`
of the subscription is not caught), finally `q <= treshold`. -/
def percentile_should_be_below (M : String → String → Bool) (column : String)
    (treshold : ℚ) (percentile : ℤ) (conv : Option String)
    (target : Option (String × String)) (value : List Record) :
    Except PErr Bool :=
  match group_values M value column target conv with
  | .error e => .error e
  | .ok values =>
    match pyQuantiles values 100 with
    | none => .error (.activityFailed "failed to compute percentiles")
    | some q =>
      match pyIndex q (percentile - 1) with
      | .error e => .error e
      | .ok qv => .ok (decide (qv ≤ treshold))

/-- `percentile_should_be_above` (tolerances.py lines 130-167): same
pipeline, returns `q >= treshold`. -/
def percentile_should_be_above (M : String → String → Bool) (column : String)
    (treshold : ℚ) (percentile : ℤ) (conv : Option String)
    (target : Option (String × String)) (value : List Record) :
    Except PErr Bool :=
  match group_values M value column target conv with
  | .error e => .error e
  | .ok values =>
    match pyQuantiles values 100 with
    | none => .error (.activityFailed "failed to compute percentiles")
    | some q =>
      match pyIndex q (percentile - 1) with
      | .error e => .error e
      | .ok qv => .ok (decide (treshold ≤ qv))

instance {ε α : Type} [DecidableEq ε] [DecidableEq α] :
    DecidableEq (Except ε α) := fun a b =>
  match a, b with
  | .error e, .error f =>
    if h : e = f then .isTrue (by rw [h])
    else .isFalse (fun hc => h (Except.error.inj hc))
  | .error _, .ok _ => .isFalse (fun hc => Except.noConfusion hc)
  | .ok _, .error _ => .isFalse (fun hc => Except.noConfusion hc)
  | .ok x, .ok y =>
    if h : x = y then .isTrue (by rw [h])
    else .isFalse (fun hc => h (Except.ok.inj hc))

/-!
## Connection-parameter resolution (`get_auth`)

`os.getenv` is abstracted by a function `env : String → Option String`
(`some` when the variable is set).  Configuration and secrets dicts carry
string values.  `InvalidExperiment` is the exception type the source raises
for unresolvable parameters.  The default Pixie server URL is an external
constant of the client library, passed in as `dflt`.
-/

/-- The resolved connection parameters returned by `get_auth`. -/
structure Auth where
  px_cluster_id : String
  px_key : String
  px_server_url : String
deriving DecidableEq

/-- Python truthiness of an optional string: `None` and `""` are falsy. -/
def pyTruthy : Option String → Bool
  | none => false
  | some s => decide (s ≠ "")

/-- Message of the `InvalidExperiment` raised for a missing cluster id
(chaospixie/__init__.py lines 104-108). -/
def clusterIdMissingMsg : String :=
  "missing the Pixie cluster id. Set it either in the configuration as `pixie_cluster_id` or via the PIXIE_CLUSTER_ID environment variable."

/-- Message of the `InvalidExperiment` raised for a missing API key
(chaospixie/__init__.py lines 110-114). -/
def apiKeyMissingMsg : String :=
  "missing the Pixie API key. Set it either in the secrets as `px_key` or via the PIXIE_API_KEY environment variable."

/-- `get_auth` (chaospixie/__init__.py lines 94-125):
`px_cluster_id = os.getenv("PIXIE_CLUSTER_ID", configuration.get("pixie_cluster_id"))`,
`px_key = os.getenv("PIXIE_API_KEY", secrets.get("api_key"))`, truthiness
checks raising `InvalidExperiment`, then
`px_server_url = os.getenv("PIXIE_SERVER_URL", configuration.get("px_server_url", DEFAULT_PIXIE_URL))`. -/
def get_auth (dflt : String) (env : String → Option String)
    (configuration secrets : List (String × String)) : Except PErr Auth :=
  let px_cluster_id : Option String :=
    match env "PIXIE_CLUSTER_ID" with
    | some v => some v
    | none => configuration.lookup "pixie_cluster_id"
  let px_key : Option String :=
    match env "PIXIE_API_KEY" with
    | some v => some v
    | none => secrets.lookup "api_key"
  if pyTruthy px_cluster_id = false then
    .error (.invalidExperiment clusterIdMissingMsg)
  else if pyTruthy px_key = false then
    .error (.invalidExperiment apiKeyMissingMsg)
  else
    let px_server_url : String :=
      match env "PIXIE_SERVER_URL" with
      | some v => v
      | none => (configuration.lookup "px_server_url").getD dflt
    .ok { px_cluster_id := px_cluster_id.getD ""
          px_key := px_key.getD ""
          px_server_url := px_server_url }

/-!
## Row normalization (`handle_timestamp`, `nanotime_to_datetime`)
-/

/-- Python `round`: round to the nearest integer, ties to the even
integer. -/
def roundHalfEven (q : ℚ) : ℤ :=
  let f : ℤ := ⌊q⌋
  let frac : ℚ := q - (f : ℚ)
  if frac < 1 / 2 then f
  else if 1 / 2 < frac then f + 1
  else if f % 2 = 0 then f else f + 1

/-- `nanotime_to_datetime` (chaospixie/__init__.py lines 164-172):
`datetime(1970, 1, 1, tzinfo=timezone.utc) + timedelta(microseconds=nano / 1000.0)`.
`timedelta` normalizes its fractional microsecond argument with Python
`round`, so the resulting UTC datetime lies `round(nano / 1000)` microseconds
after the epoch.  (The model divides exactly; the float division of the
source is exact on the inputs used in the concrete theorems below.) -/
def nanotime_to_datetime (nano : ℚ) : ℤ :=
  roundHalfEven (nano / 1000)

/-- Python dict assignment `r[k] = v` on the association-list model: replace
the value of an existing key in place, otherwise append the new entry. -/
def setKey (r : Record) (k : String) (v : Value) : Record :=
  if (r.lookup k).isSome then
    r.map (fun p => if p.1 = k then (k, v) else p)
  else r ++ [(k, v)]

/-- `handle_timestamp` (chaospixie/__init__.py lines 149-161): if the row has
a `time_` column, set `r["_dt"] = encode(nanotime_to_datetime(r["time_"]))`;
`elif` the same for `create_time`, `elif` the same for `start_time`;
otherwise leave the row alone.  A non-numeric value under the chosen column
would make `nano / 1000.0` raise `TypeError`. -/
def handle_timestamp (r : Record) : Except PErr Record :=
  match r.lookup "time_" with
  | some (.num n) => .ok (setKey r "_dt" (.dt (nanotime_to_datetime n)))
  | some _ => .error .typeError
  | none =>
    match r.lookup "create_time" with
    | some (.num n) => .ok (setKey r "_dt" (.dt (nanotime_to_datetime n)))
    | some _ => .error .typeError
    | none =>
      match r.lookup "start_time" with
      | some (.num n) => .ok (setKey r "_dt" (.dt (nanotime_to_datetime n)))
      | some _ => .error .typeError
      | none => .ok r

/-!
## Store-passing form of the tolerance operations

To state that the four operations do not mutate their input record set, the
same source code is embedded a second time in store-passing style: the record
set lives in a store, the loop of `group_values` reads each record from the
store by index, and every function returns the store it leaves behind next
to its result (also when it raises).  The loop body is the same
`recordContribution` as above — the source statements only ever read from
the records.
-/

/-- The `for r in results` loop of `group_values`, reading each record from
the store; returns the raised-or-returned outcome together with the store
left behind. -/
def group_valuesGo (M : String → String → Bool) (column : String)
    (target : Option (String × String)) (conv : Option String) :
    List ℕ → List Record → List ℚ → Except PErr (List ℚ) × List Record
  | [], store, acc => (.ok acc, store)
  | i :: rest, store, acc =>
    match store.get? i with
    | none => (.error .indexError, store)
    | some r =>
      match recordContribution M column target conv r with
      | .error e => (.error e, store)
      | .ok none => group_valuesGo M column target conv rest store acc
      | .ok (some v) => group_valuesGo M column target conv rest store (acc ++ [v])

/-- Store-passing `group_values`. -/
def group_valuesS (M : String → String → Bool) (column : String)
    (target : Option (String × String)) (conv : Option String)
    (store : List Record) : Except PErr (List ℚ) × List Record :=
  group_valuesGo M column target conv (List.range store.length) store []

/-- Store-passing `median_should_be_below`. -/
def median_should_be_belowS (M : String → String → Bool) (column : String)
    (treshold : ℚ) (conv : Option String) (target : Option (String × String))
    (store : List Record) : Except PErr Bool × List Record :=
  let g := group_valuesS M column target conv store
  (match g.1 with
   | .error e => .error e
   | .ok values =>
     match pyMedian values with
     | none => .error (.activityFailed "failed to compute median")
     | some m => .ok (decide (m ≤ treshold)), g.2)

/-- Store-passing `median_should_be_above`. -/
def median_should_be_aboveS (M : String → String → Bool) (column : String)
    (treshold : ℚ) (conv : Option String) (target : Option (String × String))
    (store : List Record) : Except PErr Bool × List Record :=
  let g := group_valuesS M column target conv store
  (match g.1 with
   | .error e => .error e
   | .ok values =>
     match pyMedian values with
     | none => .error (.activityFailed "failed to compute median")
     | some m => .ok (decide (treshold ≤ m)), g.2)

/-- Store-passing `percentile_should_be_below`. -/
def percentile_should_be_belowS (M : String → String → Bool) (column : String)
    (treshold : ℚ) (percentile : ℤ) (conv : Option String)
    (target : Option (String × String)) (store : List Record) :
    Except PErr Bool × List Record :=
  let g := group_valuesS M column target conv store
  (match g.1 with
   | .error e => .error e
   | .ok values =>
     match pyQuantiles values 100 with
     | none => .error (.activityFailed "failed to compute percentiles")
     | some q =>
       match pyIndex q (percentile - 1) with
       | .error e => .error e
       | .ok qv => .ok (decide (qv ≤ treshold)), g.2)

/-- Store-passing `percentile_should_be_above`. -/
def percentile_should_be_aboveS (M : String → String → Bool) (column : String)
    (treshold : ℚ) (percentile : ℤ) (conv : Option String)
    (target : Option (String × String)) (store : List Record) :
    Except PErr Bool × List Record :=
  let g := group_valuesS M column target conv store
  (match g.1 with
   | .error e => .error e
   | .ok values =>
     match pyQuantiles values 100 with
     | none => .error (.activityFailed "failed to compute percentiles")
     | some q =>
       match pyIndex q (percentile - 1) with
       | .error e => .error e
       | .ok qv => .ok (decide (treshold ≤ qv)), g.2)

/-!
## Helper lemmas
-/

theorem pyMedian_nil : pyMedian [] = none := rfl

theorem length_pySorted (l : List ℚ) : (pySorted l).length = l.length :=
  (List.perm_insertionSort (· ≤ ·) l).length_eq

theorem pyQuantiles_too_small {data : List ℚ} (h : data.length < 2) :
    pyQuantiles data 100 = none := by
  unfold pyQuantiles
  rw [if_neg (by norm_num)]
  simp only [length_pySorted]
  rw [if_pos h]

theorem pyQuantiles_100_length {data qs : List ℚ}
    (h : pyQuantiles data 100 = some qs) : qs.length = 99 := by
  unfold pyQuantiles at h
  rw [if_neg (by norm_num)] at h
  by_cases hld : (pySorted data).length < 2
  · rw [if_pos hld] at h
    exact absurd h (by simp)
  · rw [if_neg hld] at h
    injection h with h
    simp [← h]

theorem pyIndex_ok {l : List ℚ} {i : ℤ} (h0 : 0 ≤ i) (h1 : i < (l.length : ℤ)) :
    pyIndex l i = .ok (l.getD i.toNat 0) := by
  unfold pyIndex
  simp only [if_neg (show ¬ i < 0 by omega)]
  rw [if_pos (show 0 ≤ i ∧ i < (l.length : ℤ) from ⟨h0, h1⟩)]

theorem group_valuesGo_store (M : String → String → Bool) (column : String)
    (target : Option (String × String)) (conv : Option String) :
    ∀ (idxs : List ℕ) (store : List Record) (acc : List ℚ),
      (group_valuesGo M column target conv idxs store acc).2 = store := by
  intro idxs
  induction idxs with
  | nil => intro store acc; rfl
  | cons i rest ih =>
    intro store acc
    unfold group_valuesGo
    cases h : store.get? i with
    | none => rfl
    | some r =>
      dsimp only
      cases hc : recordContribution M column target conv r with
      | error e => rfl
      | ok o =>
        cases o with
        | none => exact ih store acc
        | some v => exact ih store (acc ++ [v])

theorem pyQuantiles_100_exists {data : List ℚ} (h : 2 ≤ data.length) :
    ∃ qs, pyQuantiles data 100 = some qs := by
  cases hq : pyQuantiles data 100 with
  | some qs => exact ⟨qs, rfl⟩
  | none =>
    exfalso
    unfold pyQuantiles at hq
    rw [if_neg (by norm_num),
      if_neg (by simp only [length_pySorted]; omega)] at hq
    exact Option.noConfusion hq

theorem pyIndex_err {l : List ℚ} {i : ℤ} (h0 : 0 ≤ i)
    (h1 : (l.length : ℤ) ≤ i) : pyIndex l i = .error .indexError := by
  unfold pyIndex
  simp only [if_neg (show ¬ i < 0 by omega)]
  rw [if_neg (by omega)]

/-!
## Claims
-/

/-- C1: whenever the extraction pipeline produces an empty value list (empty
record set, no record with the target column, or every record excluded by the
target filter), each of the four tolerance operations raises `ActivityFailed`
— `"failed to compute median"` for the median operations and
`"failed to compute percentiles"` for the percentile operations — and never
returns a boolean or sentinel value. -/
theorem C1_empty_extraction_fails (M : String → String → Bool)
    (column : String) (t : ℚ) (p : ℤ) (conv : Option String)
    (target : Option (String × String)) (recs : List Record)
    (hg : group_values M recs column target conv = .ok []) :
    median_should_be_below M column t conv target recs
        = .error (.activityFailed "failed to compute median") ∧
    median_should_be_above M column t conv target recs
        = .error (.activityFailed "failed to compute median") ∧
    percentile_should_be_below M column t p conv target recs
        = .error (.activityFailed "failed to compute percentiles") ∧
    percentile_should_be_above M column t p conv target recs
        = .error (.activityFailed "failed to compute percentiles") := by
  have hq : pyQuantiles [] 100 = none := pyQuantiles_too_small (by simp)
  refine ⟨?_, ?_, ?_, ?_⟩ <;>
    simp [median_should_be_below, median_should_be_above,
      percentile_should_be_below, percentile_should_be_above, hg,
      pyMedian_nil, hq]

/-- Witness for C1: on the empty record set every operation fails with the
documented message. -/
theorem C1_empty_extraction_fails_witness :
    median_should_be_below litMatch "latency" 1 none none []
        = .error (.activityFailed "failed to compute median") ∧
    median_should_be_above litMatch "latency" 1 none none []
        = .error (.activityFailed "failed to compute median") ∧
    percentile_should_be_below litMatch "latency" 1 99 none none []
        = .error (.activityFailed "failed to compute percentiles") ∧
    percentile_should_be_above litMatch "latency" 1 99 none none []
        = .error (.activityFailed "failed to compute percentiles") :=
  C1_empty_extraction_fails litMatch "latency" 1 99 none none [] rfl

/-- C4: a record carrying the numeric value `v` under the target column
contributes exactly `v / 1e9` under `convert_from_nanoseconds = "seconds"`,
`v / 1e6` under `"milliseconds"`, `v / 1e3` under `"microseconds"`, and `v`
unchanged when no conversion is requested, in input order ahead of the
remaining records' contributions. -/
theorem C4_unit_conversion (M : String → String → Bool) (column : String)
    (r : Record) (rest : List Record) (v : ℚ)
    (hv : r.lookup column = some (.num v)) :
    group_values M (r :: rest) column none (some "seconds")
        = (group_values M rest column none (some "seconds")).map
            (fun vs => v / 1000000000 :: vs) ∧
    group_values M (r :: rest) column none (some "milliseconds")
        = (group_values M rest column none (some "milliseconds")).map
            (fun vs => v / 1000000 :: vs) ∧
    group_values M (r :: rest) column none (some "microseconds")
        = (group_values M rest column none (some "microseconds")).map
            (fun vs => v / 1000 :: vs) ∧
    group_values M (r :: rest) column none none
        = (group_values M rest column none none).map (fun vs => v :: vs) := by
  have h : ∀ conv : Option String,
      group_values M (r :: rest) column none conv
        = (group_values M rest column none conv).map
            (fun vs => convertNano conv v :: vs) := by
    intro conv
    simp only [group_values, recordContribution, hv]
    cases group_values M rest column none conv <;> simp [Except.map]
  refine ⟨?_, ?_, ?_, ?_⟩ <;> simpa [convertNano] using h _

/-- Witness for C4: the raw value `5e9` nanoseconds converts to `5` seconds,
`5e3` milliseconds, `5e6` microseconds, and passes through unchanged without
conversion. -/
theorem C4_unit_conversion_witness :
    group_values litMatch [[("latency", Value.num 5000000000)]] "latency"
        none (some "seconds") = .ok [5] ∧
    group_values litMatch [[("latency", Value.num 5000000000)]] "latency"
        none (some "milliseconds") = .ok [5000] ∧
    group_values litMatch [[("latency", Value.num 5000000000)]] "latency"
        none (some "microseconds") = .ok [5000000] ∧
    group_values litMatch [[("latency", Value.num 5000000000)]] "latency"
        none none = .ok [5000000000] := by
  have h := C4_unit_conversion litMatch "latency"
    [("latency", Value.num 5000000000)] [] 5000000000 rfl
  refine ⟨?_, ?_, ?_, ?_⟩
  · rw [h.1]; norm_num [group_values, Except.map]
  · rw [h.2.1]; norm_num [group_values, Except.map]
  · rw [h.2.2.1]; norm_num [group_values, Except.map]
  · rw [h.2.2.2]; simp [group_values, Except.map]

/-- C10: none of the four tolerance operations mutates its input record set:
run in store-passing form, each operation hands back exactly the store it was
given — same records, same keys, same length and order — whether it returns
a boolean or raises. -/
theorem C10_no_mutation (M : String → String → Bool) (column : String)
    (t : ℚ) (p : ℤ) (conv : Option String)
    (target : Option (String × String)) (store : List Record) :
    (median_should_be_belowS M column t conv target store).2 = store ∧
    (median_should_be_aboveS M column t conv target store).2 = store ∧
    (percentile_should_be_belowS M column t p conv target store).2 = store ∧
    (percentile_should_be_aboveS M column t p conv target store).2 = store := by
  refine ⟨?_, ?_, ?_, ?_⟩ <;>
    simp [median_should_be_belowS, median_should_be_aboveS,
      percentile_should_be_belowS, percentile_should_be_aboveS,
      group_valuesS, group_valuesGo_store]

/-- C3: whenever the statistic is actually computed from a non-empty
extracted value list, the "below" operations return
`statistic <= threshold` and the "above" operations return
`statistic >= threshold`; both directions include equality, so when the
statistic equals the threshold the below-variant and the above-variant of
the same statistic both return `true`. -/
theorem C3_inclusive_directions (M : String → String → Bool) (column : String)
    (t : ℚ) (p : ℤ) (conv : Option String) (target : Option (String × String))
    (recs : List Record) (vs : List ℚ)
    (hg : group_values M recs column target conv = .ok vs) :
    (∀ m, pyMedian vs = some m →
      median_should_be_below M column t conv target recs
          = .ok (decide (m ≤ t)) ∧
      median_should_be_above M column t conv target recs
          = .ok (decide (t ≤ m)) ∧
      (m = t →
        median_should_be_below M column t conv target recs = .ok true ∧
        median_should_be_above M column t conv target recs = .ok true)) ∧
    (2 ≤ vs.length → 1 ≤ p → p ≤ 99 →
      percentile_should_be_below M column t p conv target recs
          = .ok (decide (((pyQuantiles vs 100).getD []).getD (p - 1).toNat 0 ≤ t)) ∧
      percentile_should_be_above M column t p conv target recs
          = .ok (decide (t ≤ ((pyQuantiles vs 100).getD []).getD (p - 1).toNat 0)) ∧
      (((pyQuantiles vs 100).getD []).getD (p - 1).toNat 0 = t →
        percentile_should_be_below M column t p conv target recs = .ok true ∧
        percentile_should_be_above M column t p conv target recs = .ok true)) := by
  constructor
  · intro m hm
    have hb : median_should_be_below M column t conv target recs
        = .ok (decide (m ≤ t)) := by
      simp [median_should_be_below, hg, hm]
    have ha : median_should_be_above M column t conv target recs
        = .ok (decide (t ≤ m)) := by
      simp [median_should_be_above, hg, hm]
    refine ⟨hb, ha, fun he => ?_⟩
    subst he
    constructor
    · rw [hb]; simp
    · rw [ha]; simp
  · intro hlen h1 h99
    obtain ⟨qs, hq⟩ := pyQuantiles_100_exists hlen
    have hgetD : (pyQuantiles vs 100).getD [] = qs := by rw [hq]; rfl
    rw [hgetD]
    have hql : qs.length = 99 := pyQuantiles_100_length hq
    have hidx : pyIndex qs (p - 1) = .ok (qs.getD (p - 1).toNat 0) :=
      pyIndex_ok (by omega) (by rw [hql]; omega)
    have hb : percentile_should_be_below M column t p conv target recs
        = .ok (decide (qs.getD (p - 1).toNat 0 ≤ t)) := by
      simp [percentile_should_be_below, hg, hq, hidx]
    have ha : percentile_should_be_above M column t p conv target recs
        = .ok (decide (t ≤ qs.getD (p - 1).toNat 0)) := by
      simp [percentile_should_be_above, hg, hq, hidx]
    refine ⟨hb, ha, fun he => ?_⟩
    constructor
    · rw [hb, he]; simp
    · rw [ha, he]; simp

/-- Witness for C3: on the records with latency values 0.5, 0.8, 0.9 the
median is 0.8 and the exclusive 99th percentile is 0.996; at thresholds
equal to those statistics both directional variants return `true`. -/
theorem C3_inclusive_directions_witness :
    median_should_be_below litMatch "latency" (4/5) none none
      [[("latency", Value.num (1/2))], [("latency", Value.num (4/5))],
        [("latency", Value.num (9/10))]] = .ok true ∧
    median_should_be_above litMatch "latency" (4/5) none none
      [[("latency", Value.num (1/2))], [("latency", Value.num (4/5))],
        [("latency", Value.num (9/10))]] = .ok true ∧
    percentile_should_be_below litMatch "latency" (249/250) 99 none none
      [[("latency", Value.num (1/2))], [("latency", Value.num (4/5))],
        [("latency", Value.num (9/10))]] = .ok true ∧
    percentile_should_be_above litMatch "latency" (249/250) 99 none none
      [[("latency", Value.num (1/2))], [("latency", Value.num (4/5))],
        [("latency", Value.num (9/10))]] = .ok true := by
  have hmed := (C3_inclusive_directions litMatch "latency" (4/5) 99 none none
    [[("latency", Value.num (1/2))], [("latency", Value.num (4/5))],
      [("latency", Value.num (9/10))]] [1/2, 4/5, 9/10]
    (by with_unfolding_all decide)).1 (4/5) (by with_unfolding_all decide)
  have hperc := (C3_inclusive_directions litMatch "latency" (249/250) 99 none
    none [[("latency", Value.num (1/2))], [("latency", Value.num (4/5))],
      [("latency", Value.num (9/10))]] [1/2, 4/5, 9/10]
    (by with_unfolding_all decide)).2 (by norm_num) (by norm_num) (by norm_num)
  have heq := hmed.2.2 rfl
  have hpeq := hperc.2.2 (by with_unfolding_all decide)
  exact ⟨heq.1, heq.2, hpeq.1, hpeq.2⟩

/-- C5 (amended): for a requested percentile `p` between 1 and 99 and at
least two extracted values, the percentile operations partition the values
into the 99 boundaries of a 100-quantile scheme and compare the boundary at
index `p - 1` against the threshold; with fewer than two points they fail
with `ActivityFailed("failed to compute percentiles")`; the claim's upper
value `p = 100` instead raises an uncaught `IndexError`, because the
partition has only 99 boundaries (indices 0 to 98). -/
theorem C5_percentile_partition (M : String → String → Bool) (column : String)
    (t : ℚ) (p : ℤ) (conv : Option String) (target : Option (String × String))
    (recs : List Record) (vs : List ℚ)
    (hg : group_values M recs column target conv = .ok vs) :
    (vs.length < 2 →
      percentile_should_be_below M column t p conv target recs
          = .error (.activityFailed "failed to compute percentiles") ∧
      percentile_should_be_above M column t p conv target recs
          = .error (.activityFailed "failed to compute percentiles")) ∧
    (2 ≤ vs.length →
      ((pyQuantiles vs 100).getD []).length = 99 ∧
      (1 ≤ p → p ≤ 99 →
        percentile_should_be_below M column t p conv target recs
            = .ok (decide (((pyQuantiles vs 100).getD []).getD (p - 1).toNat 0 ≤ t)) ∧
        percentile_should_be_above M column t p conv target recs
            = .ok (decide (t ≤ ((pyQuantiles vs 100).getD []).getD (p - 1).toNat 0))) ∧
      (p = 100 →
        percentile_should_be_below M column t p conv target recs
            = .error .indexError ∧
        percentile_should_be_above M column t p conv target recs
            = .error .indexError)) := by
  constructor
  · intro hsmall
    have hq : pyQuantiles vs 100 = none := pyQuantiles_too_small hsmall
    constructor
    · simp [percentile_should_be_below, hg, hq]
    · simp [percentile_should_be_above, hg, hq]
  · intro hlen
    obtain ⟨qs, hq⟩ := pyQuantiles_100_exists hlen
    have hgetD : (pyQuantiles vs 100).getD [] = qs := by rw [hq]; rfl
    rw [hgetD]
    have hql : qs.length = 99 := pyQuantiles_100_length hq
    refine ⟨hql, fun h1 h99 => ?_, fun h100 => ?_⟩
    · have hidx : pyIndex qs (p - 1) = .ok (qs.getD (p - 1).toNat 0) :=
        pyIndex_ok (by omega) (by rw [hql]; omega)
      constructor
      · simp [percentile_should_be_below, hg, hq, hidx]
      · simp [percentile_should_be_above, hg, hq, hidx]
    · subst h100
      have hidx : pyIndex qs 99 = .error .indexError :=
        pyIndex_err (by omega) (by rw [hql]; omega)
      constructor
      · simp [percentile_should_be_below, hg, hq, hidx]
      · simp [percentile_should_be_above, hg, hq, hidx]

/-- Witness for C5: on extracted values `[0, 1]` the 99th percentile
boundary is `1.97`, below the threshold `2`; on the single-valued record set
the operation fails with the documented message. -/
theorem C5_percentile_partition_witness :
    percentile_should_be_below litMatch "c" 2 99 none none
      [[("c", Value.num 0)], [("c", Value.num 1)]] = .ok true ∧
    percentile_should_be_below litMatch "c" 2 99 none none
      [[("c", Value.num 0)]]
        = .error (.activityFailed "failed to compute percentiles") := by
  have h := C5_percentile_partition litMatch "c" 2 99 none none
    [[("c", Value.num 0)], [("c", Value.num 1)]] [0, 1]
    (by with_unfolding_all decide)
  have h2 := C5_percentile_partition litMatch "c" 2 99 none none
    [[("c", Value.num 0)]] [0] (by with_unfolding_all decide)
  constructor
  · have hb := ((h.2 (by norm_num)).2.1 (by norm_num) (by norm_num)).1
    rw [hb]
    with_unfolding_all decide
  · exact (h2.1 (by norm_num)).1

/-- Counterexample for C5: the claim admits every percentile in 1–100, but
at `p = 100` with two data points the operation does not compare any
boundary against the threshold — it raises an uncaught `IndexError` (the
100-quantile partition has only 99 boundaries), not a boolean and not the
documented `ActivityFailed`. -/
theorem C5_percentile_partition_counterexample :
    percentile_should_be_below litMatch "c" 1 100 none none
      [[("c", Value.num 0)], [("c", Value.num 1)]] = .error .indexError ∧
    percentile_should_be_below litMatch "c" 1 100 none none
      [[("c", Value.num 0)], [("c", Value.num 1)]] ≠ .ok true ∧
    percentile_should_be_below litMatch "c" 1 100 none none
      [[("c", Value.num 0)], [("c", Value.num 1)]] ≠ .ok false := by
  refine ⟨?_, ?_, ?_⟩ <;> with_unfolding_all decide

/-- C2 (amended): with a target filter present whose key is non-empty, a
record is skipped by the filter step exactly when the key exists in the
record with a string value that the pattern fails to match; a record lacking
the filter key, or whose string value matches, is processed exactly as if no
filter were given.  (The source guard `if key and (key in r) and rgx and
(rgx.match(r[key]) is None)` bypasses the filter entirely for an empty key,
and `re.match` on a non-string value raises `TypeError` — see C6.) -/
theorem C2_filter_semantics (M : String → String → Bool) (column : String)
    (conv : Option String) (k pat : String) (r : Record) (rest : List Record)
    (hk : k ≠ "") :
    (∀ s, r.lookup k = some (.str s) → M pat s = false →
      group_values M (r :: rest) column (some (k, pat)) conv
        = group_values M rest column (some (k, pat)) conv) ∧
    (r.lookup k = none →
      recordContribution M column (some (k, pat)) conv r
        = recordContribution M column none conv r) ∧
    (∀ s, r.lookup k = some (.str s) → M pat s = true →
      recordContribution M column (some (k, pat)) conv r
        = recordContribution M column none conv r) := by
  refine ⟨?_, ?_, ?_⟩
  · intro s hs hm
    have hc : recordContribution M column (some (k, pat)) conv r = .ok none := by
      simp [recordContribution, hk, hs, hm]
    simp [group_values, hc]
  · intro hnone
    simp [recordContribution, hk, hnone]
  · intro s hs hm
    simp [recordContribution, hk, hs, hm]

/-- Witness for C2 (amended): a record whose `pod` fails the pattern is
dropped from extraction, a record lacking `pod` is processed unfiltered, and
a matching record is processed unfiltered. -/
theorem C2_filter_semantics_witness :
    group_values litMatch
      [[("pod", Value.str "/producer/3"), ("latency", Value.num (9/10))],
        [("latency", Value.num (1/2)), ("pod", Value.str "/consumer/1")]]
      "latency" (some ("pod", "/consumer")) none
      = group_values litMatch
          [[("latency", Value.num (1/2)), ("pod", Value.str "/consumer/1")]]
          "latency" (some ("pod", "/consumer")) none ∧
    recordContribution litMatch "latency" (some ("pod", "/consumer")) none
        [("latency", Value.num (1/2))]
      = recordContribution litMatch "latency" none none
          [("latency", Value.num (1/2))] ∧
    recordContribution litMatch "latency" (some ("pod", "/consumer")) none
        [("latency", Value.num (1/2)), ("pod", Value.str "/consumer/1")]
      = recordContribution litMatch "latency" none none
          [("latency", Value.num (1/2)), ("pod", Value.str "/consumer/1")] := by
  have h := C2_filter_semantics litMatch "latency" none "pod" "/consumer"
    [("pod", Value.str "/producer/3"), ("latency", Value.num (9/10))]
    [[("latency", Value.num (1/2)), ("pod", Value.str "/consumer/1")]]
    (by decide)
  have h2 := C2_filter_semantics litMatch "latency" none "pod" "/consumer"
    [("latency", Value.num (1/2))] [] (by decide)
  have h3 := C2_filter_semantics litMatch "latency" none "pod" "/consumer"
    [("latency", Value.num (1/2)), ("pod", Value.str "/consumer/1")] []
    (by decide)
  exact ⟨h.1 "/producer/3" rfl (by decide), h2.2.1 rfl,
    h3.2.2 "/consumer/1" rfl (by decide)⟩

/-- Counterexample for C2: with the target filter `("", "z")` — present, its
key `""` existing in the record, and the pattern `"z"` not matching the
value `"x"` — the claim demands the record be skipped, but the source guard
treats the empty-string key as falsy and retains the record, so extraction
returns `[1]` rather than `[]`. -/
theorem C2_filter_semantics_counterexample :
    litMatch "z" "x" = false ∧
    ([("", Value.str "x"), ("c", Value.num 1)] : Record).lookup ""
      = some (Value.str "x") ∧
    group_values litMatch [[("", Value.str "x"), ("c", Value.num 1)]] "c"
      (some ("", "z")) none = .ok [1] ∧
    group_values litMatch [[("", Value.str "x"), ("c", Value.num 1)]] "c"
      (some ("", "z")) none ≠ .ok [] := by
  refine ⟨?_, ?_, ?_, ?_⟩ <;> with_unfolding_all decide

/-- C6 (amended): with a non-empty filter key present in the record, the
match test is applied to the record's raw value at that key, with no
stringification: when the value is a string the filter retains or skips the
record according to the pattern match, and when the value is not a string
(`re.match` on a non-string argument) the operation raises an uncaught
`TypeError` instead of filtering. -/
theorem C6_match_on_raw_value (M : String → String → Bool) (column : String)
    (conv : Option String) (k pat : String) (r : Record) (hk : k ≠ "") :
    (∀ s, r.lookup k = some (.str s) →
      recordContribution M column (some (k, pat)) conv r
        = (if M pat s then recordContribution M column none conv r
           else .ok none)) ∧
    (∀ v, r.lookup k = some v → (∀ s, v ≠ .str s) →
      recordContribution M column (some (k, pat)) conv r
        = .error .typeError) := by
  constructor
  · intro s hs
    by_cases hm : M pat s
    · rw [if_pos hm]
      simp [recordContribution, hk, hs, hm]
    · rw [if_neg hm]
      have hm' : M pat s = false := by simpa using hm
      simp [recordContribution, hk, hs, hm']
  · intro v hv hns
    cases v with
    | str s => exact absurd rfl (hns s)
    | num q => simp [recordContribution, hk, hv]
    | bool b => simp [recordContribution, hk, hv]
    | null => simp [recordContribution, hk, hv]
    | dt us => simp [recordContribution, hk, hv]

/-- Witness for C6 (amended): a string `pod` matching the pattern is
processed unfiltered, while a numeric `pod` raises `TypeError`. -/
theorem C6_match_on_raw_value_witness :
    recordContribution litMatch "latency" (some ("pod", "/consumer")) none
        [("pod", Value.str "/consumer/1"), ("latency", Value.num (1/2))]
      = recordContribution litMatch "latency" none none
          [("pod", Value.str "/consumer/1"), ("latency", Value.num (1/2))] ∧
    recordContribution litMatch "latency" (some ("pod", "1")) none
        [("pod", Value.num 1), ("latency", Value.num 5)]
      = .error .typeError := by
  have h := C6_match_on_raw_value litMatch "latency" none "pod" "/consumer"
    [("pod", Value.str "/consumer/1"), ("latency", Value.num (1/2))]
    (by decide)
  have h2 := C6_match_on_raw_value litMatch "latency" none "pod" "1"
    [("pod", Value.num 1), ("latency", Value.num 5)] (by decide)
  constructor
  · have hif := h.1 "/consumer/1" rfl
    rw [hif, if_pos (by decide)]
  · exact h2.2 (Value.num 1) rfl (fun s => by simp)

/-- Counterexample for C6: the claim says filtering succeeds regardless of
whether the stored value is a string or a number; but for the record
`{pod: 1, latency: 5}` with filter `("pod", "1")` — where the stringified
value `"1"` would match and the claim predicts the extracted list `[5]` —
the source passes the raw number to `re.match`, which raises `TypeError`. -/
theorem C6_match_on_raw_value_counterexample :
    group_values litMatch [[("pod", Value.num 1), ("latency", Value.num 5)]]
      "latency" (some ("pod", "1")) none = .error .typeError ∧
    group_values litMatch [[("pod", Value.num 1), ("latency", Value.num 5)]]
      "latency" (some ("pod", "1")) none ≠ .ok [5] := by
  constructor <;> with_unfolding_all decide

/-- C7: the median operations compute the standard statistical median — the
middle element of the sorted values for odd length, the average of the two
middle elements for even length — and on the records with latency values
0.5, 0.8, 0.9 the operation `median_should_be_below` at threshold 1.0
computes the median 0.8 and returns `true`. -/
theorem C7_median_standard :
    (∀ (vs l : List ℚ), vs ≠ [] → l.Perm vs → List.Sorted (· ≤ ·) l →
      pyMedian vs = some (if vs.length % 2 = 1 then l.getD (vs.length / 2) 0
        else (l.getD (vs.length / 2 - 1) 0 + l.getD (vs.length / 2) 0) / 2)) ∧
    median_should_be_below litMatch "latency" 1 none none
      [[("latency", Value.num (1/2))], [("latency", Value.num (4/5))],
        [("latency", Value.num (9/10))]] = .ok true ∧
    pyMedian [1/2, 4/5, 9/10] = some (4/5) := by
  refine ⟨?_, ?_, ?_⟩
  · intro vs l hne hperm hsort
    have hl : l = pySorted vs := by
      refine List.eq_of_perm_of_sorted ?_ hsort ?_
      · exact hperm.trans (List.perm_insertionSort (· ≤ ·) vs).symm
      · exact List.sorted_insertionSort (· ≤ ·) vs
    rw [hl]
    unfold pyMedian
    simp only [length_pySorted]
    rw [if_neg (by simpa using hne)]
    by_cases hodd : vs.length % 2 = 1
    · rw [if_pos hodd, if_pos hodd]
    · rw [if_neg hodd, if_neg hodd]
  · with_unfolding_all decide
  · with_unfolding_all decide

/-- Witness for C7: the general part applied to the unsorted value list
`[0.9, 0.5, 0.8]` with its sorted arrangement `[0.5, 0.8, 0.9]` yields the
middle element 0.8. -/
theorem C7_median_standard_witness :
    pyMedian [9/10, 1/2, 4/5] = some (4/5) := by
  have h := C7_median_standard.1 [9/10, 1/2, 4/5] [1/2, 4/5, 9/10]
    (by simp) (by with_unfolding_all decide) (by with_unfolding_all decide)
  simpa using h

/-- C8 (amended): connection-parameter resolution is layered with the
environment variable first, then the explicit configuration/secret value,
then the documented default for the server URL only; `get_auth` fails with
`InvalidExperiment` (the `ConfigurationError` kind) when the cluster
identifier, or else the API key, cannot be resolved truthily from either
layer. -/
theorem C8_auth_layering (dflt : String) (env : String → Option String)
    (conf sec : List (String × String)) :
    (∀ a, get_auth dflt env conf sec = .ok a →
      (∀ c, env "PIXIE_CLUSTER_ID" = some c → a.px_cluster_id = c) ∧
      (env "PIXIE_CLUSTER_ID" = none →
        ∀ c, conf.lookup "pixie_cluster_id" = some c → a.px_cluster_id = c) ∧
      (∀ k, env "PIXIE_API_KEY" = some k → a.px_key = k) ∧
      (env "PIXIE_API_KEY" = none →
        ∀ k, sec.lookup "api_key" = some k → a.px_key = k) ∧
      (∀ u, env "PIXIE_SERVER_URL" = some u → a.px_server_url = u) ∧
      (env "PIXIE_SERVER_URL" = none →
        ∀ u, conf.lookup "px_server_url" = some u → a.px_server_url = u) ∧
      (env "PIXIE_SERVER_URL" = none → conf.lookup "px_server_url" = none →
        a.px_server_url = dflt)) ∧
    ((env "PIXIE_CLUSTER_ID" = some "" ∨
        (env "PIXIE_CLUSTER_ID" = none ∧
          (conf.lookup "pixie_cluster_id" = none ∨
            conf.lookup "pixie_cluster_id" = some ""))) →
      get_auth dflt env conf sec
        = .error (.invalidExperiment clusterIdMissingMsg)) ∧
    (∀ c, (env "PIXIE_CLUSTER_ID" = some c ∨
        (env "PIXIE_CLUSTER_ID" = none ∧
          conf.lookup "pixie_cluster_id" = some c)) →
      c ≠ "" →
      (env "PIXIE_API_KEY" = some "" ∨
        (env "PIXIE_API_KEY" = none ∧
          (sec.lookup "api_key" = none ∨ sec.lookup "api_key" = some ""))) →
      get_auth dflt env conf sec
        = .error (.invalidExperiment apiKeyMissingMsg)) := by
  refine ⟨?_, ?_, ?_⟩
  · intro a ha
    simp only [get_auth] at ha
    by_cases hc : pyTruthy (match env "PIXIE_CLUSTER_ID" with
        | some v => some v | none => conf.lookup "pixie_cluster_id") = false
    · rw [if_pos hc] at ha
      exact absurd ha (by simp)
    · rw [if_neg hc] at ha
      by_cases hkf : pyTruthy (match env "PIXIE_API_KEY" with
          | some v => some v | none => sec.lookup "api_key") = false
      · rw [if_pos hkf] at ha
        exact absurd ha (by simp)
      · rw [if_neg hkf] at ha
        injection ha with ha
        refine ⟨?_, ?_, ?_, ?_, ?_, ?_, ?_⟩
        · intro c hcc
          rw [← ha]
          simp [hcc]
        · intro hcn c hcc
          rw [← ha]
          simp [hcn, hcc]
        · intro k hkk
          rw [← ha]
          simp [hkk]
        · intro hkn k hkk
          rw [← ha]
          simp [hkn, hkk]
        · intro u huu
          rw [← ha]
          simp [huu]
        · intro hun u huu
          rw [← ha]
          simp [hun, huu]
        · intro hun hcn
          rw [← ha]
          simp [hun, hcn]
  · intro hmiss
    have hc : pyTruthy (match env "PIXIE_CLUSTER_ID" with
        | some v => some v | none => conf.lookup "pixie_cluster_id") = false := by
      rcases hmiss with h | ⟨h1, h2 | h2⟩
      · simp [h, pyTruthy]
      · simp [h1, h2, pyTruthy]
      · simp [h1, h2, pyTruthy]
    simp [get_auth, hc]
  · intro c hres hcne hkmiss
    have hc : pyTruthy (match env "PIXIE_CLUSTER_ID" with
        | some v => some v | none => conf.lookup "pixie_cluster_id") = true := by
      rcases hres with h | ⟨h1, h2⟩
      · simp [h, pyTruthy, hcne]
      · simp [h1, h2, pyTruthy, hcne]
    have hk : pyTruthy (match env "PIXIE_API_KEY" with
        | some v => some v | none => sec.lookup "api_key") = false := by
      rcases hkmiss with h | ⟨h1, h2 | h2⟩
      · simp [h, pyTruthy]
      · simp [h1, h2, pyTruthy]
      · simp [h1, h2, pyTruthy]
    simp [get_auth, hc, hk]

/-- Witness for C8 (amended): with no environment variables and no
configuration, `get_auth` fails with the cluster-id `InvalidExperiment`;
with only environment variables set, they resolve all three parameters. -/
theorem C8_auth_layering_witness :
    get_auth "px.example:443" (fun _ => none) [] []
      = .error (.invalidExperiment clusterIdMissingMsg) :=
  (C8_auth_layering "px.example:443" (fun _ => none) [] []).2.1
    (Or.inr ⟨rfl, Or.inl rfl⟩)

/-- Counterexample for C8: with `PIXIE_CLUSTER_ID=env-cluster` set in the
environment and `pixie_cluster_id=conf-cluster` set in the configuration,
the claim ("explicit configuration value first, else the environment
variable") demands `conf-cluster`, but the source's
`os.getenv("PIXIE_CLUSTER_ID", configuration.get("pixie_cluster_id"))`
resolves the environment variable first, yielding `env-cluster`. -/
theorem C8_auth_layering_counterexample :
    get_auth "px.example:443"
      (fun nm => if nm = "PIXIE_CLUSTER_ID" then some "env-cluster"
        else if nm = "PIXIE_API_KEY" then some "env-key" else none)
      [("pixie_cluster_id", "conf-cluster")] []
      = .ok { px_cluster_id := "env-cluster", px_key := "env-key",
              px_server_url := "px.example:443" } ∧
    get_auth "px.example:443"
      (fun nm => if nm = "PIXIE_CLUSTER_ID" then some "env-cluster"
        else if nm = "PIXIE_API_KEY" then some "env-key" else none)
      [("pixie_cluster_id", "conf-cluster")] []
      ≠ .ok { px_cluster_id := "conf-cluster", px_key := "env-key",
              px_server_url := "px.example:443" } := by
  constructor <;> with_unfolding_all decide

theorem setKey_of_not_present {r : Record} {k : String}
    (h : r.lookup k = none) (v : Value) : setKey r k v = r ++ [(k, v)] := by
  simp [setKey, h]

/-- C9 (amended): for a row not already carrying the reserved key `_dt`, if
the row has a column `time_`, `create_time`, or `start_time` (in that
priority order, first match wins) holding a nanosecond timestamp `n`, the
normalization pass appends exactly one derived field under the reserved key
`_dt` — leaving every existing field unchanged — whose value is the UTC
timestamp `round(n / 1000)` microseconds after the epoch (rounded to the
nearest microsecond, ties to even, by `timedelta`'s normalization — not
truncated); a row with none of the three columns gains no derived field. -/
theorem C9_timestamp_normalization (r : Record) (n : ℚ)
    (hdt : r.lookup "_dt" = none) :
    (r.lookup "time_" = some (.num n) →
      handle_timestamp r
        = .ok (r ++ [("_dt", .dt (roundHalfEven (n / 1000)))])) ∧
    (r.lookup "time_" = none → r.lookup "create_time" = some (.num n) →
      handle_timestamp r
        = .ok (r ++ [("_dt", .dt (roundHalfEven (n / 1000)))])) ∧
    (r.lookup "time_" = none → r.lookup "create_time" = none →
      r.lookup "start_time" = some (.num n) →
      handle_timestamp r
        = .ok (r ++ [("_dt", .dt (roundHalfEven (n / 1000)))])) ∧
    (r.lookup "time_" = none → r.lookup "create_time" = none →
      r.lookup "start_time" = none → handle_timestamp r = .ok r) := by
  refine ⟨?_, ?_, ?_, ?_⟩
  · intro h1
    simp [handle_timestamp, h1, nanotime_to_datetime,
      setKey_of_not_present hdt]
  · intro h1 h2
    simp [handle_timestamp, h1, h2, nanotime_to_datetime,
      setKey_of_not_present hdt]
  · intro h1 h2 h3
    simp [handle_timestamp, h1, h2, h3, nanotime_to_datetime,
      setKey_of_not_present hdt]
  · intro h1 h2 h3
    simp [handle_timestamp, h1, h2, h3]

/-- Witness for C9 (amended): a row with `create_time` of 2000000
nanoseconds gains the single derived field `_dt` at 2000 microseconds after
the epoch. -/
theorem C9_timestamp_normalization_witness :
    handle_timestamp [("create_time", Value.num 2000000)]
      = .ok [("create_time", Value.num 2000000), ("_dt", Value.dt 2000)] := by
  have h := (C9_timestamp_normalization [("create_time", Value.num 2000000)]
    2000000 rfl).2.1 rfl rfl
  rw [h]
  norm_num [roundHalfEven]

/-- Counterexample for C9: at 1500 nanoseconds (1.5 microseconds) the claim
("truncated to microsecond precision") demands the derived timestamp
`⌊1500 / 1000⌋ = 1` microsecond, but the `timedelta` normalization of the
source rounds half-to-even and stores 2 microseconds. -/
theorem C9_timestamp_normalization_counterexample :
    handle_timestamp [("time_", Value.num 1500)]
      = .ok [("time_", Value.num 1500), ("_dt", Value.dt 2)] ∧
    (2 : ℤ) ≠ ⌊(1500 : ℚ) / 1000⌋ := by
  constructor
  · have hr : roundHalfEven ((1500 : ℚ) / 1000) = 2 := by
      unfold roundHalfEven
      norm_num
    simp [handle_timestamp, nanotime_to_datetime, setKey, hr]
  · norm_num

end Chaospixie
